/-
Verification of the birthday-wishes script (`birthday_wish.py`) against its
specification.

The script has three stages: a Record Source (`read_birthdays`, built on
`pandas.read_csv` with `parse_dates=["DateOfBirth"]`), a Birthday Filter
(`get_todays_birthday_people`), and a Notifier (`create_birthday_email` /
`send_email`, driven by the loop in `main`).  Everything below is a shallow
embedding of those functions: pure Python code becomes Lean functions, the
filesystem and the SMTP relay become explicit inputs, exceptions become
`Except` / `Option` values, and the observable behaviour of `main` (prints,
dataset reads, SMTP sessions) becomes an explicit event trace.
-/
import Mathlib

set_option autoImplicit false

/-- A calendar date, as produced by parsing a `DateOfBirth` cell or read from
the system clock (`datetime.now()`). -/
structure Date where
  year : Nat
  month : Nat
  day : Nat
deriving DecidableEq, Repr

/-- Gregorian leap-year rule (as implemented by Python's `datetime`). -/
def isLeap (y : Nat) : Bool :=
  (y % 4 == 0 && y % 100 != 0) || y % 400 == 0

/-- Number of days in a month of a given year. -/
def daysInMonth (y m : Nat) : Nat :=
  if m == 2 then (if isLeap y then 29 else 28)
  else if m == 4 || m == 6 || m == 9 || m == 11 then 30
  else 31

/-- A real calendar date: months 1..12, days 1..`daysInMonth`.  Every value the
system clock can return satisfies this. -/
def validDate (d : Date) : Bool :=
  1 ≤ d.month && d.month ≤ 12 && 1 ≤ d.day && d.day ≤ daysInMonth d.year d.month

/-- Split a character list on `'-'` (the semantics of `splitOn "-"`). -/
def splitDash : List Char → List (List Char)
  | [] => [[]]
  | c :: cs =>
    if c = '-' then [] :: splitDash cs
    else
      match splitDash cs with
      | [] => [[c]]
      | g :: gs => (c :: g) :: gs

/-- The value of a decimal digit character, `none` otherwise. -/
def digitVal (c : Char) : Option Nat :=
  if '0' ≤ c ∧ c ≤ '9' then some (c.toNat - 48) else none

/-- Auxiliary accumulator for reading a decimal numeral. -/
def natOfDigitsAux : Nat → List Char → Option Nat
  | acc, [] => some acc
  | acc, c :: cs =>
    match digitVal c with
    | some d => natOfDigitsAux (acc * 10 + d) cs
    | none => none

/-- Read a nonempty all-digit character list as a natural number
(the semantics of `String.toNat?` on the field). -/
def natOfDigits (cs : List Char) : Option Nat :=
  if cs.isEmpty then none else natOfDigitsAux 0 cs

/-- Parse one cell in the canonical accepted `YYYY-MM-DD` format (the format of
the documented input file; `pandas` accepts it as an ISO date).  A value that is
not a real calendar date in this format is malformed. -/
def parseDate (s : String) : Option Date :=
  match splitDash s.data with
  | [ys, ms, ds] =>
    match natOfDigits ys, natOfDigits ms, natOfDigits ds with
    | some y, some m, some d =>
      if validDate ⟨y, m, d⟩ then some ⟨y, m, d⟩ else none
    | _, _, _ => none
  | _ => none

/-- One cell of a loaded DataFrame: either a plain string or a parsed datetime
(the dtype `parse_dates` produces when the whole column parses). -/
inductive Cell where
  | str (s : String)
  | date (d : Date)
deriving DecidableEq, Repr

/-- Whether a cell has datetime dtype. -/
def Cell.isDate : Cell → Bool
  | .date _ => true
  | .str _ => false

/-- A loaded `pandas.DataFrame`: named columns and rows of cells, each row
aligned with the column list by position. -/
structure DataFrame where
  columns : List String
  rows : List (List Cell)
deriving DecidableEq, Repr

/-- The Python exceptions the script can raise or print, by kind. -/
inductive PyError where
  | environmentError (msg : String)
  | fileNotFound (msg : String)
  | parserError (msg : String)
  | valueError (msg : String)
  | attributeError (msg : String)
  | smtpException (msg : String)
  | osError (msg : String)
deriving DecidableEq, Repr

/-- `str(e)` — the message `main` prints for an exception. -/
def PyError.message : PyError → String
  | .environmentError m => m
  | .fileNotFound m => m
  | .parserError m => m
  | .valueError m => m
  | .attributeError m => m
  | .smtpException m => m
  | .osError m => m

/-- The state of the input file as the `pandas` CSV reader sees it: absent,
present but not parseable as a delimited table, or a parsed table (header
columns plus string cell rows). -/
inductive FileInput where
  | missing
  | unparseable
  | table (columns : List String) (cells : List (List String))
deriving DecidableEq, Repr

/-- The index of the `DateOfBirth` column in a header. -/
def dobIdx (cols : List String) : Nat :=
  cols.findIdx (· == "DateOfBirth")

/-- Whether every value of the `DateOfBirth` column parses as a date —
the condition under which the `parse_dates` conversion applies (it is
column-wide: `pandas` converts the dtype of the whole column or leaves the
whole column as strings). -/
def allDobParsed (cols : List String) (cells : List (List String)) : Bool :=
  cells.all (fun r => (parseDate (r.getD (dobIdx cols) "")).isSome)

/-- The cell grid after the `parse_dates=` conversion of `read_csv`:
the `DateOfBirth` column becomes datetime cells when every value in it parses,
otherwise every column is left as strings. -/
def convertRows (cols : List String) (cells : List (List String)) : List (List Cell) :=
  cells.map (fun r => r.enum.map (fun p =>
    if p.1 == dobIdx cols && allDobParsed cols cells then
      match parseDate p.2 with
      | some d => Cell.date d
      | none => Cell.str p.2
    else Cell.str p.2))

/-- Embedding of `pd.read_csv(csv_file, parse_dates=["DateOfBirth"])`:
a missing file raises `FileNotFoundError`; an unparseable file raises
`pandas.errors.ParserError`; naming an absent column in `parse_dates` raises
`ValueError`; otherwise the `DateOfBirth` column is converted to datetime cells
only when every value in it parses — per the documented `pandas` behaviour, a
column with any unparseable value is returned unaltered as strings, without
raising. -/
def read_csv (f : FileInput) : Except PyError DataFrame :=
  match f with
  | .missing => .error (.fileNotFound "CSV file not found: birthdays.csv")
  | .unparseable => .error (.parserError "Error parsing CSV file: birthdays.csv")
  | .table cols cells =>
    if "DateOfBirth" ∈ cols then
      .ok ⟨cols, convertRows cols cells⟩
    else .error (.valueError "Missing column provided to parse_dates: DateOfBirth")

/-- Embedding of `read_birthdays`: read the CSV (re-raising keeps the error
kind) and require the columns `Name`, `DateOfBirth`, `Email` all present. -/
def read_birthdays (csv_file : FileInput) : Except PyError DataFrame :=
  match read_csv csv_file with
  | .error e => .error e
  | .ok df =>
    if "Name" ∈ df.columns ∧ "DateOfBirth" ∈ df.columns ∧ "Email" ∈ df.columns then
      .ok df
    else
      .error (.valueError "CSV file must contain columns: Name, DateOfBirth, Email")

/-- The cell of a row under the `DateOfBirth` column of `df`. -/
def rowDob (df : DataFrame) (r : List Cell) : Cell :=
  r.getD (dobIdx df.columns) (.str "")

/-- The row predicate of the boolean mask
`(df["DateOfBirth"].dt.month == today.month) & (df["DateOfBirth"].dt.day == today.day)`. -/
def birthdayMatch (today : Date) (c : Cell) : Bool :=
  match c with
  | .date d => d.month == today.month && d.day == today.day
  | .str _ => false

/-- Embedding of `get_todays_birthday_people`.  The Python function reads
`datetime.now()` internally; that clock reading is the explicit `today`
argument here.  `df["DateOfBirth"]` raises `KeyError` if the column is absent,
and `.dt` raises `AttributeError` unless the column has datetime dtype (in this
embedding: every cell of the column is a date); otherwise the boolean mask
keeps exactly the month/day-matching rows, in order. -/
def get_todays_birthday_people (df : DataFrame) (today : Date) : Except PyError DataFrame :=
  if "DateOfBirth" ∈ df.columns then
    if df.rows.all (fun r => (rowDob df r).isDate) then
      .ok ⟨df.columns, df.rows.filter (fun r => birthdayMatch today (rowDob df r))⟩
    else
      .error (.attributeError "Can only use .dt accessor with datetimelike values")
  else
    .error (.valueError "DateOfBirth")

instance {ε α : Type} [DecidableEq ε] [DecidableEq α] : DecidableEq (Except ε α) :=
  fun x y =>
    match x, y with
    | .error a, .error b =>
      if h : a = b then .isTrue (congrArg Except.error h)
      else .isFalse (fun hc => h (Except.error.inj hc))
    | .error _, .ok _ => .isFalse (fun hc => Except.noConfusion hc)
    | .ok _, .error _ => .isFalse (fun hc => Except.noConfusion hc)
    | .ok a, .ok b =>
      if h : a = b then .isTrue (congrArg Except.ok h)
      else .isFalse (fun hc => h (Except.ok.inj hc))

/-- A DataFrame whose `DateOfBirth` column exists and has datetime dtype —
the shape `read_birthdays` produces when every date value parsed. -/
def DataFrame.wellFormed (df : DataFrame) : Prop :=
  "DateOfBirth" ∈ df.columns ∧ ∀ r ∈ df.rows, (rowDob df r).isDate = true

instance (df : DataFrame) : Decidable df.wellFormed := by
  unfold DataFrame.wellFormed; infer_instance

example : parseDate "1990-03-14" = some ⟨1990, 3, 14⟩ := by decide
example : parseDate "banana" = none := by decide
example : parseDate "1999-02-29" = none := by decide
example : parseDate "2000-02-29" = some ⟨2000, 2, 29⟩ := by decide

/-- The process environment as `os.getenv` sees it: each variable either absent
(`none`) or present with a string value (possibly empty). -/
structure Env where
  gmailAddress : Option String
  gmailAppPassword : Option String
deriving DecidableEq, Repr

/-- Python truthiness of an `os.getenv` result: `None` and `""` are falsy. -/
def truthy (o : Option String) : Bool :=
  match o with
  | none => false
  | some s => s ≠ ""

/-- Embedding of `load_env_variables`: raises `EnvironmentError` unless both
variables are set and nonempty (`if not email_address or not app_password`). -/
def load_env_variables (env : Env) : Except PyError (String × String) :=
  if !truthy env.gmailAddress || !truthy env.gmailAppPassword then
    .error (.environmentError
      "GMAIL_ADDRESS or GMAIL_APP_PASSWORD not found in environment variables.")
  else
    .ok (env.gmailAddress.getD "", env.gmailAppPassword.getD "")

/-- An `email.message.EmailMessage` as the script fills it in: subject, `From`
and `To` headers, and the plain-text body. -/
structure EmailMessage where
  subject : String
  fromAddr : String
  toAddr : String
  body : String
deriving DecidableEq, Repr

/-- Embedding of `create_birthday_email`: the fixed template, with the
recipient's name interpolated into the body (the body keeps the literal
indentation of the Python triple-quoted string). -/
def create_birthday_email (sender_email recipient_email recipient_name : String) :
    EmailMessage :=
  { subject := "Happy Birthday! 🎉"
    fromAddr := sender_email
    toAddr := recipient_email
    body := "    Dear " ++ recipient_name ++
      ",\n\n    Wishing you a very Happy Birthday! May your day be filled with joy, laughter, and unforgettable moments.\n\n    Best wishes,\n    Your Friendly Birthday Bot\n    " }

/-- An observable action of one run of the script: invoking the CSV reader on
the dataset file, opening one authenticated SMTP session and attempting to
submit one message in it, or printing one line to standard output. -/
inductive Event where
  | readDataset
  | smtpSession (message : EmailMessage)
  | printLine (s : String)
deriving DecidableEq, Repr

/-- Whether an event is an SMTP session (= one send attempt). -/
def Event.isSession : Event → Bool
  | .smtpSession _ => true
  | _ => false

/-- How the relay interaction for one message ends: the session succeeds; some
step raises an `smtplib.SMTPException` (authentication rejected, relay rejects
the recipient, protocol errors, ...), the only class the script's handlers
catch; or some step raises an exception *outside* the `SMTPException`
hierarchy — `ConnectionRefusedError`, `socket.gaierror`, `ssl.SSLError`,
`TimeoutError`, all `OSError` relatives that `SMTP_SSL` connect/TLS setup can
raise, none of which is a subclass of `smtplib.SMTPException`. -/
inductive SendResult where
  | ok
  | smtpErr (msg : String)
  | osErr (msg : String)
deriving DecidableEq, Repr

/-- Whether the attempt raised a non-`SMTPException` exception. -/
def SendResult.isOs : SendResult → Bool
  | .osErr _ => true
  | _ => false

/-- The SMTP relay, abstracted: its response to one submitted message. -/
structure SmtpWorld where
  sendFail : EmailMessage → SendResult

/-- Embedding of `send_email`: opens one `SMTP_SSL` session, logs in and
submits the message.  Its `try/except smtplib.SMTPException` catches only the
`SMTPException` hierarchy and re-raises it tagged with the recipient address
taken from the To header; any other exception (the `OSError` relatives from
connect/TLS) propagates unchanged and untagged.  Returns the events of the
attempt and the raised exception, if any. -/
def send_email (w : SmtpWorld) (message : EmailMessage)
    (_email_address _app_password : String) : List Event × Option PyError :=
  ([.smtpSession message],
   match w.sendFail message with
   | .ok => none
   | .smtpErr e => some (.smtpException
       ("Failed to send email to " ++ message.toAddr ++ ": " ++ e))
   | .osErr e => some (.osError e))

/-- The reported result of one per-recipient send attempt. -/
inductive Outcome where
  | success (name email : String)
  | failure (msg : String)
deriving DecidableEq, Repr

/-- Whether an outcome is a failure. -/
def Outcome.isFailure : Outcome → Bool
  | .failure _ => true
  | _ => false

/-- One iteration of the per-recipient loop in `main`: compose the email, send
it, print the success line, or print the caught exception — the inner
`except smtplib.SMTPException` clause catches *only* that hierarchy, so any
other exception escapes the iteration (`Except.error`), unprinted here. -/
def notifyOne (w : SmtpWorld) (sender pwd : String) (person : String × String) :
    List Event × Except PyError Outcome :=
  let email_msg := create_birthday_email sender person.2 person.1
  match send_email w email_msg sender pwd with
  | (evs, none) =>
    (evs ++ [.printLine ("Successfully sent birthday email to " ++ person.1 ++
       " (" ++ person.2 ++ ")")],
     .ok (.success person.1 person.2))
  | (evs, some (.smtpException m)) =>
    (evs ++ [.printLine m], .ok (.failure m))
  | (evs, some e) =>
    (evs, .error e)

/-- The whole per-recipient loop of `main`, over the matched people
(name, email pairs), in dataset order.  An exception escaping one iteration
aborts the loop: the remaining recipients are not attempted and the exception
propagates to `main`'s outer handler. -/
def notifyAll (w : SmtpWorld) (sender pwd : String) :
    List (String × String) → List Event × Except PyError (List Outcome)
  | [] => ([], .ok [])
  | p :: ps =>
    match notifyOne w sender pwd p with
    | (evs, .ok o) =>
      let rest := notifyAll w sender pwd ps
      (evs ++ rest.1, rest.2.map (o :: ·))
    | (evs, .error e) => (evs, .error e)

/-- The string content of a cell, as `person["Name"]` / `person["Email"]`
read it (those columns are always plain strings). -/
def cellStr : Cell → String
  | .str s => s
  | .date _ => ""

/-- The (name, email) pairs `birthday_people.iterrows()` yields, in row
order. -/
def personsOf (df : DataFrame) : List (String × String) :=
  let ni := df.columns.findIdx (· == "Name")
  let ei := df.columns.findIdx (· == "Email")
  df.rows.map (fun r => (cellStr (r.getD ni (.str "")), cellStr (r.getD ei (.str ""))))

/-- Embedding of `main`.  Inputs: the process environment, the state of
`birthdays.csv`, the SMTP relay, and the system clock reading `today` that
`get_todays_birthday_people` uses.  The outer `try` catches every exception and
prints `f"Error: {e}"`; the inner per-recipient `try` catches only
`smtplib.SMTPException`.  Returns the trace of observable events. -/
def main_run (env : Env) (file : FileInput) (w : SmtpWorld) (today : Date) : List Event :=
  match load_env_variables env with
  | .error e => [.printLine ("Error: " ++ e.message)]
  | .ok (sender_email, app_password) =>
    .readDataset ::
    match read_birthdays file with
    | .error e => [.printLine ("Error: " ++ e.message)]
    | .ok df =>
      match get_todays_birthday_people df today with
      | .error e => [.printLine ("Error: " ++ e.message)]
      | .ok birthday_people =>
        if birthday_people.rows.isEmpty then
          [.printLine "No birthdays today. Have a nice day!"]
        else
          match notifyAll w sender_email app_password (personsOf birthday_people) with
          | (evs, .ok _) => evs
          | (evs, .error e) => evs ++ [.printLine ("Error: " ++ e.message)]

/-- One whole process run (`if __name__ == "__main__": main()`): the event
trace and the process exit status.  `main` catches every exception and returns
normally, so the interpreter always exits with status 0. -/
def script (env : Env) (file : FileInput) (w : SmtpWorld) (today : Date) :
    List Event × Nat :=
  (main_run env file w today, 0)

/-- Specification-side description of the line the loop prints for one
recipient whose iteration does not abort: the success line, or the message of
the caught `SMTPException`, which is tagged with the recipient's address (the
`osErr` branch is never printed by the loop; it is listed only to keep the
function total). -/
def reportLine (w : SmtpWorld) (sender : String) (p : String × String) : String :=
  match w.sendFail (create_birthday_email sender p.2 p.1) with
  | .ok => "Successfully sent birthday email to " ++ p.1 ++ " (" ++ p.2 ++ ")"
  | .smtpErr e => "Failed to send email to " ++ p.2 ++ ": " ++ e
  | .osErr e => e

/-- A well-formed two-person dataset, as loaded from the documented example
file. -/
def dfTwo : DataFrame :=
  ⟨["Name", "DateOfBirth", "Email"],
   [[.str "Alice Smith", .date ⟨1990, 3, 14⟩, .str "alice@example.com"],
    [.str "Bob Jones", .date ⟨1985, 11, 2⟩, .str "bob@example.com"]]⟩

/-- A well-formed dataset with no rows. -/
def dfEmpty : DataFrame :=
  ⟨["Name", "DateOfBirth", "Email"], []⟩

/-- The row of a person born on February 29 of a leap year. -/
def row29 : List Cell :=
  [.str "Leap Person", .date ⟨2000, 2, 29⟩, .str "leap@example.com"]

/-- A well-formed dataset containing only the February 29 person. -/
def df29 : DataFrame :=
  ⟨["Name", "DateOfBirth", "Email"], [row29]⟩

/-- An environment in which `GMAIL_ADDRESS` is absent. -/
def envNoAddress : Env := ⟨none, some "secret"⟩

/-- A relay on which every send attempt succeeds. -/
def smtpAllOk : SmtpWorld := ⟨fun _ => .ok⟩

/-- A parseable input file with the three required columns and one valid row. -/
def goodFile : FileInput :=
  .table ["Name", "DateOfBirth", "Email"] [["Alice Smith", "1990-03-14", "alice@example.com"]]

/-- A relay that rejects, with an `smtplib.SMTPException`, exactly the
messages addressed to `b@x.com`. -/
def smtpFailB : SmtpWorld :=
  ⟨fun m => if m.toAddr = "b@x.com" then .smtpErr "boom" else .ok⟩

/-- A relay whose `SMTP_SSL` connection attempt raises `ConnectionRefusedError`
— which is *not* an `smtplib.SMTPException` — exactly for the messages
addressed to `b@x.com`, and succeeds otherwise. -/
def smtpRefuseB : SmtpWorld :=
  ⟨fun m => if m.toAddr = "b@x.com" then .osErr "[Errno 111] Connection refused" else .ok⟩

/-- Three matched recipients; on `smtpFailB` exactly the second send fails. -/
def psThree : List (String × String) :=
  [("A", "a@x.com"), ("B", "b@x.com"), ("C", "c@x.com")]

/-- An environment with both credentials present. -/
def envOk : Env := ⟨some "sender@gmail.com", some "pw"⟩

/-- An input file whose three rows all have birthdays on June 1. -/
def fileThree : FileInput :=
  .table ["Name", "DateOfBirth", "Email"]
    [["A", "2000-06-01", "a@x.com"],
     ["B", "1999-06-01", "b@x.com"],
     ["C", "1998-06-01", "c@x.com"]]

/-- On a well-formed DataFrame the Birthday Filter takes the success branch and
returns the mask-filtered rows under the same columns. -/
lemma filter_eq_of_wellFormed (df : DataFrame) (today : Date) (h : df.wellFormed) :
    get_todays_birthday_people df today =
      .ok ⟨df.columns, df.rows.filter (fun r => birthdayMatch today (rowDob df r))⟩ := by
  have hall : df.rows.all (fun r => (rowDob df r).isDate) = true := by
    rw [List.all_eq_true]; exact fun r hr => h.2 r hr
  simp [get_todays_birthday_people, h.1, hall]

/-- **C1**: on every well-formed dataset and reference date, the Birthday
Filter succeeds and returns exactly the ordered subsequence (a sublist, hence
in original order) of the rows whose `DateOfBirth` month and day equal the
reference date's month and day; the membership criterion constrains no year
component. -/
theorem birthday_filter_is_month_day_subsequence (df : DataFrame) (today : Date)
    (h : df.wellFormed) :
    ∃ res : DataFrame, get_todays_birthday_people df today = .ok res ∧
      res.columns = df.columns ∧
      res.rows.Sublist df.rows ∧
      ∀ r : List Cell, r ∈ res.rows ↔ r ∈ df.rows ∧
        ∃ d : Date, rowDob df r = .date d ∧ d.month = today.month ∧ d.day = today.day := by
  refine ⟨_, filter_eq_of_wellFormed df today h, rfl, List.filter_sublist _, fun r => ?_⟩
  simp only [List.mem_filter]
  constructor
  · rintro ⟨hr, hm⟩
    refine ⟨hr, ?_⟩
    cases hdob : rowDob df r with
    | str s => rw [hdob] at hm; simp [birthdayMatch] at hm
    | date d =>
      rw [hdob] at hm
      simp only [birthdayMatch, Bool.and_eq_true, beq_iff_eq] at hm
      exact ⟨d, rfl, hm.1, hm.2⟩
  · rintro ⟨hr, d, hdob, hm, hd⟩
    refine ⟨hr, ?_⟩
    simp [birthdayMatch, hdob, hm, hd]

/-- **C1** witness: on the documented two-person dataset with reference date
March 14, 2026, the filter keeps exactly Alice's row. -/
theorem birthday_filter_is_month_day_subsequence_witness :
    dfTwo.wellFormed ∧
    ∃ res : DataFrame, get_todays_birthday_people dfTwo ⟨2026, 3, 14⟩ = .ok res ∧
      res.columns = dfTwo.columns ∧
      res.rows.Sublist dfTwo.rows ∧
      ∀ r : List Cell, r ∈ res.rows ↔ r ∈ dfTwo.rows ∧
        ∃ d : Date, rowDob dfTwo r = .date d ∧ d.month = 3 ∧ d.day = 14 :=
  ⟨by decide, birthday_filter_is_month_day_subsequence dfTwo ⟨2026, 3, 14⟩ (by decide)⟩

/-- **C6**: the Birthday Filter is total on well-formed input — it never
fails there, and on an empty dataset it returns an empty match sequence
rather than an error. -/
theorem birthday_filter_total_on_wellformed (df : DataFrame) (today : Date)
    (h : df.wellFormed) :
    ∃ res : DataFrame, get_todays_birthday_people df today = .ok res ∧
      (df.rows = [] → res.rows = []) :=
  ⟨_, filter_eq_of_wellFormed df today h, fun he => by simp [he]⟩

/-- **C6** witness: filtering the empty dataset succeeds and yields no rows. -/
theorem birthday_filter_total_on_wellformed_witness :
    dfEmpty.wellFormed ∧
    ∃ res : DataFrame, get_todays_birthday_people dfEmpty ⟨2026, 1, 15⟩ = .ok res ∧
      (dfEmpty.rows = [] → res.rows = []) :=
  ⟨by decide, birthday_filter_total_on_wellformed dfEmpty ⟨2026, 1, 15⟩ (by decide)⟩

/-- **C7**: a record whose `DateOfBirth` is February 29 is never in the
filter's output when the reference date is a real calendar date of a non-leap
year — no nearest-day substitution happens on February 28, March 1, or any
other day of such a year. -/
theorem feb29_never_matches_in_nonleap_year (df : DataFrame) (today : Date)
    (res : DataFrame)
    (hv : validDate today = true) (hl : isLeap today.year = false)
    (hres : get_todays_birthday_people df today = .ok res)
    (r : List Cell) (d : Date) (hdob : rowDob df r = .date d)
    (hm : d.month = 2) (hd : d.day = 29) :
    r ∉ res.rows := by
  intro hr
  unfold get_todays_birthday_people at hres
  split at hres
  · split at hres
    · cases hres
      simp only [List.mem_filter] at hr
      have hmatch := hr.2
      rw [hdob] at hmatch
      simp only [birthdayMatch, Bool.and_eq_true, beq_iff_eq] at hmatch
      obtain ⟨h2, h29⟩ := hmatch
      have hm2 : today.month = 2 := by rw [← h2, hm]
      have hd29 : today.day = 29 := by rw [← h29, hd]
      simp only [validDate, Bool.and_eq_true, decide_eq_true_eq] at hv
      obtain ⟨-, hle⟩ := hv
      rw [hm2, hd29] at hle
      simp [daysInMonth, hl] at hle
    · cases hres
  · cases hres

/-- **C7** witness: the February 29 record does not match on February 28 of
the non-leap year 2026. -/
theorem feb29_never_matches_in_nonleap_year_witness :
    validDate ⟨2026, 2, 28⟩ = true ∧ isLeap 2026 = false ∧
    get_todays_birthday_people df29 ⟨2026, 2, 28⟩ =
      .ok ⟨["Name", "DateOfBirth", "Email"], []⟩ ∧
    row29 ∉ (⟨["Name", "DateOfBirth", "Email"], []⟩ : DataFrame).rows :=
  ⟨by decide, by decide, by decide,
   feb29_never_matches_in_nonleap_year df29 ⟨2026, 2, 28⟩ _ (by decide) (by decide)
     (by decide) row29 ⟨2000, 2, 29⟩ (by decide) rfl rfl⟩

/-- **C8**: the Birthday Filter (with the clock reading modelled as the
explicit reference-date input) is deterministic: two runs on equal datasets
and reference dates with equal month and day — in particular equal reference
dates — produce identical results; nothing else influences the output. -/
theorem birthday_filter_deterministic (df₁ df₂ : DataFrame) (t₁ t₂ : Date)
    (hdf : df₁ = df₂) (hm : t₁.month = t₂.month) (hd : t₁.day = t₂.day) :
    get_todays_birthday_people df₁ t₁ = get_todays_birthday_people df₂ t₂ := by
  subst hdf
  have hb : birthdayMatch t₁ = birthdayMatch t₂ := by
    funext c; cases c <;> simp [birthdayMatch, hm, hd]
  simp only [get_todays_birthday_people, hb]

/-- **C8** witness: two runs on the same dataset with the same month and day
(reference years 2026 and 1999) coincide. -/
theorem birthday_filter_deterministic_witness :
    get_todays_birthday_people dfTwo ⟨2026, 3, 14⟩ =
      get_todays_birthday_people dfTwo ⟨1999, 3, 14⟩ :=
  birthday_filter_deterministic dfTwo dfTwo ⟨2026, 3, 14⟩ ⟨1999, 3, 14⟩ rfl rfl rfl

/-- When the `DateOfBirth` column is in the header, `read_csv` succeeds with
the converted cell grid. -/
lemma read_csv_table (cols : List String) (cells : List (List String))
    (hD : "DateOfBirth" ∈ cols) :
    read_csv (.table cols cells) = .ok ⟨cols, convertRows cols cells⟩ := by
  simp [read_csv, hD]

/-- When all three required columns are in the header, `read_birthdays`
succeeds with the converted cell grid — whatever other columns the header
has. -/
lemma read_birthdays_table_ok (cols : List String) (cells : List (List String))
    (h1 : "Name" ∈ cols) (hD : "DateOfBirth" ∈ cols) (h3 : "Email" ∈ cols) :
    read_birthdays (.table cols cells) = .ok ⟨cols, convertRows cols cells⟩ := by
  simp only [read_birthdays, read_csv_table cols cells hD]
  rw [if_pos ⟨h1, hD, h3⟩]

/-- When some `DateOfBirth` value is malformed, the whole column — indeed the
whole grid — is left as plain strings. -/
lemma convertRows_unparsed (cols : List String) (cells : List (List String))
    (hall : allDobParsed cols cells = false) :
    convertRows cols cells = cells.map (fun r => r.enum.map (fun p => Cell.str p.2)) := by
  simp [convertRows, hall]

/-- Indexing anywhere into a list of non-datetime cells (with the `.str`
default) yields a non-datetime cell. -/
lemma isDate_getD_false (l : List Cell) (i : Nat) (h : ∀ c ∈ l, c.isDate = false) :
    (l.getD i (Cell.str "")).isDate = false := by
  induction l generalizing i with
  | nil => cases i <;> rfl
  | cons c cs ih =>
    cases i with
    | zero => exact h c (by simp)
    | succ n =>
      simp only [List.getD_cons_succ]
      exact ih n (fun x hx => h x (List.mem_cons_of_mem _ hx))

/-- **C4**: loading fails with a `ValueError` (schema error) whenever any of
the three required columns is absent from the header — a dataset-level
failure, before any filtering can happen — while a header containing all
three loads successfully no matter what extra columns it carries. -/
theorem missing_required_column_fails_load (cols : List String)
    (cells : List (List String)) :
    (("Name" ∉ cols ∨ "DateOfBirth" ∉ cols ∨ "Email" ∉ cols) →
      ∃ m, read_birthdays (.table cols cells) = .error (.valueError m)) ∧
    ("Name" ∈ cols → "DateOfBirth" ∈ cols → "Email" ∈ cols →
      read_birthdays (.table cols cells) = .ok ⟨cols, convertRows cols cells⟩) := by
  constructor
  · intro hmiss
    by_cases hD : "DateOfBirth" ∈ cols
    · have hcond : ¬("Name" ∈ cols ∧ "DateOfBirth" ∈ cols ∧ "Email" ∈ cols) := by tauto
      refine ⟨"CSV file must contain columns: Name, DateOfBirth, Email", ?_⟩
      simp only [read_birthdays, read_csv_table cols cells hD]
      rw [if_neg hcond]
    · exact ⟨"Missing column provided to parse_dates: DateOfBirth",
        by simp [read_birthdays, read_csv, hD]⟩
  · exact read_birthdays_table_ok cols cells

/-- **C4** witness: dropping `Email` from the header makes loading fail with a
`ValueError`; a header with the extra column `Nickname` still loads. -/
theorem missing_required_column_fails_load_witness :
    ("Email" ∉ (["Name", "DateOfBirth"] : List String)) ∧
    (∃ m, read_birthdays (.table ["Name", "DateOfBirth"] [["A", "2000-06-01"]]) =
      .error (.valueError m)) ∧
    read_birthdays
        (.table ["Name", "DateOfBirth", "Email", "Nickname"]
          [["A", "2000-06-01", "a@x.com", "Al"]]) =
      .ok ⟨["Name", "DateOfBirth", "Email", "Nickname"],
        convertRows ["Name", "DateOfBirth", "Email", "Nickname"]
          [["A", "2000-06-01", "a@x.com", "Al"]]⟩ :=
  ⟨by decide,
   (missing_required_column_fails_load _ _).1 (Or.inr (Or.inr (by decide))),
   (missing_required_column_fails_load _ _).2 (by decide) (by decide) (by decide)⟩

/-- **C5** counterexample: a malformed `DateOfBirth` value does *not* fail the
load — `read_birthdays` succeeds on a row whose date cell is `banana`,
returning the column unparsed (as strings).  The claim that a malformed date
value fails the whole load is therefore false of the code; the failure only
surfaces later, inside the Birthday Filter. -/
theorem malformed_date_load_succeeds :
    read_birthdays (.table ["Name", "DateOfBirth", "Email"] [["A", "banana", "a@x.com"]]) =
      .ok ⟨["Name", "DateOfBirth", "Email"],
        [[.str "A", .str "banana", .str "a@x.com"]]⟩ := by
  decide

/-- **C5** (amended): the Record Source fails with three distinct surfaced
kinds — a nonexistent file yields `FileNotFoundError`, an unparseable file
yields `ParserError`, missing required columns yield `ValueError` — none
recovered locally; a malformed `DateOfBirth` value, however, does not fail the
load: the dataset loads with the column unparsed and the run instead fails in
the Birthday Filter (`AttributeError` on the `.dt` accessor), so bad rows are
still never silently skipped. -/
theorem record_source_failure_kinds :
    (∃ m, read_birthdays .missing = .error (.fileNotFound m)) ∧
    (∃ m, read_birthdays .unparseable = .error (.parserError m)) ∧
    (∀ cols cells, ("Name" ∉ cols ∨ "DateOfBirth" ∉ cols ∨ "Email" ∉ cols) →
      ∃ m, read_birthdays (.table cols cells) = .error (.valueError m)) ∧
    (∀ cols cells (today : Date),
      "Name" ∈ cols → "DateOfBirth" ∈ cols → "Email" ∈ cols →
      allDobParsed cols cells = false →
      ∃ df : DataFrame, read_birthdays (.table cols cells) = .ok df ∧
        ∃ m, get_todays_birthday_people df today = .error (.attributeError m)) := by
  refine ⟨⟨_, rfl⟩, ⟨_, rfl⟩,
    fun cols cells h => (missing_required_column_fails_load cols cells).1 h,
    fun cols cells today h1 hD h3 hall => ?_⟩
  refine ⟨⟨cols, convertRows cols cells⟩, read_birthdays_table_ok cols cells h1 hD h3, ?_⟩
  have hconv := convertRows_unparsed cols cells hall
  unfold allDobParsed at hall
  obtain ⟨r0, hr0, hbad⟩ := List.all_eq_false.mp hall
  have hcr : r0.enum.map (fun p => Cell.str p.2) ∈ convertRows cols cells := by
    rw [hconv]; exact List.mem_map_of_mem _ hr0
  have hstr : ∀ c ∈ r0.enum.map (fun p => Cell.str p.2), c.isDate = false := by
    intro c hc
    obtain ⟨p, -, rfl⟩ := List.mem_map.mp hc
    rfl
  have hdate :
      (rowDob ⟨cols, convertRows cols cells⟩ (r0.enum.map (fun p => Cell.str p.2))).isDate
        = false :=
    isDate_getD_false _ _ hstr
  have hallrows : (convertRows cols cells).all
      (fun r => (rowDob ⟨cols, convertRows cols cells⟩ r).isDate) = false :=
    List.all_eq_false.mpr ⟨_, hcr, by simp [hdate]⟩
  exact ⟨"Can only use .dt accessor with datetimelike values",
    by simp [get_todays_birthday_people, hD, hallrows]⟩

/-- **C5** witness: the missing-`Email` header fails with a `ValueError`, and
the `banana` date row loads successfully but makes the filter raise an
`AttributeError`. -/
theorem record_source_failure_kinds_witness :
    (∃ m, read_birthdays (.table ["Name", "DateOfBirth"] [["A", "2000-06-01"]]) =
      .error (.valueError m)) ∧
    (∃ df : DataFrame,
      read_birthdays (.table ["Name", "DateOfBirth", "Email"] [["A", "banana", "a@x.com"]]) =
        .ok df ∧
      ∃ m, get_todays_birthday_people df ⟨2026, 6, 1⟩ = .error (.attributeError m)) :=
  ⟨record_source_failure_kinds.2.2.1 _ _ (Or.inr (Or.inr (by decide))),
   record_source_failure_kinds.2.2.2 _ _ ⟨2026, 6, 1⟩ (by decide) (by decide)
     (by decide) (by decide)⟩

/-- **C10**: an environment variable set to the empty string behaves exactly
like an absent one — credential loading returns the same `EnvironmentError`
either way, and the dataset is never read. -/
theorem empty_env_var_same_as_missing (a p : Option String) (file : FileInput)
    (w : SmtpWorld) (today : Date) :
    load_env_variables ⟨some "", p⟩ = load_env_variables ⟨none, p⟩ ∧
    load_env_variables ⟨a, some ""⟩ = load_env_variables ⟨a, none⟩ ∧
    (∃ m, load_env_variables ⟨some "", p⟩ = .error (.environmentError m)) ∧
    Event.readDataset ∉ main_run ⟨some "", p⟩ file w today ∧
    Event.readDataset ∉ main_run ⟨a, some ""⟩ file w today := by
  refine ⟨?_, ?_,
    ⟨"GMAIL_ADDRESS or GMAIL_APP_PASSWORD not found in environment variables.", ?_⟩,
    ?_, ?_⟩ <;>
    simp [load_env_variables, truthy, main_run]

/-- **C3** (amended): every startup-stage failure — missing credentials, or a
dataset that is missing, unreadable, or lacking required columns — aborts the
run before any email is sent and is reported exactly once, and a missing
credential aborts before the dataset is touched; the process, however, exits
with status 0 (the script prints the error and returns normally), not with a
non-zero status. -/
theorem startup_failure_aborts (env : Env) (file : FileInput) (w : SmtpWorld)
    (today : Date) :
    (∀ e, load_env_variables env = .error e →
      script env file w today = ([.printLine ("Error: " ++ e.message)], 0)) ∧
    (∀ sender pwd e, load_env_variables env = .ok (sender, pwd) →
      read_birthdays file = .error e →
      script env file w today =
        ([.readDataset, .printLine ("Error: " ++ e.message)], 0)) := by
  constructor
  · intro e he; simp [script, main_run, he]
  · intro sender pwd e hc he; simp [script, main_run, hc, he]

/-- **C3** witness: with `GMAIL_ADDRESS` unset the run prints the credential
error only — no dataset read, no SMTP session — and exits with status 0. -/
theorem startup_failure_aborts_witness :
    load_env_variables envNoAddress =
      .error (.environmentError
        "GMAIL_ADDRESS or GMAIL_APP_PASSWORD not found in environment variables.") ∧
    script envNoAddress goodFile smtpAllOk ⟨2026, 3, 14⟩ =
      ([.printLine ("Error: " ++
        "GMAIL_ADDRESS or GMAIL_APP_PASSWORD not found in environment variables.")], 0) :=
  ⟨by decide,
   (startup_failure_aborts envNoAddress goodFile smtpAllOk ⟨2026, 3, 14⟩).1
     (.environmentError
       "GMAIL_ADDRESS or GMAIL_APP_PASSWORD not found in environment variables.")
     (by decide)⟩

/-- **C3** counterexample: a concrete startup failure (missing
`GMAIL_ADDRESS`) on which the whole observable run is the single error line —
so the run did abort at startup — yet the process exit status is 0, refuting
the claim that startup failures make the process exit with a non-zero
status. -/
theorem startup_failure_exit_status_zero :
    (script envNoAddress goodFile smtpAllOk ⟨2026, 3, 14⟩).1 =
      [.printLine
        "Error: GMAIL_ADDRESS or GMAIL_APP_PASSWORD not found in environment variables."] ∧
    (script envNoAddress goodFile smtpAllOk ⟨2026, 3, 14⟩).2 = 0 := by
  constructor <;> decide


/-- The To header of the composed message is the recipient's address. -/
lemma create_birthday_email_toAddr (s r n : String) :
    (create_birthday_email s r n).toAddr = r := rfl

/-- A loop iteration whose send attempt does not raise a non-`SMTPException`
exception emits exactly one SMTP session (carrying the composed message) and
one report line, and completes with an outcome instead of escaping. -/
lemma notifyOne_not_os (w : SmtpWorld) (sender pwd : String) (p : String × String)
    (h : (w.sendFail (create_birthday_email sender p.2 p.1)).isOs = false) :
    (notifyOne w sender pwd p).1 =
      [Event.smtpSession (create_birthday_email sender p.2 p.1),
       Event.printLine (reportLine w sender p)] ∧
    ∃ o, (notifyOne w sender pwd p).2 = Except.ok o := by
  unfold notifyOne send_email reportLine
  cases hs : w.sendFail (create_birthday_email sender p.2 p.1) with
  | ok => simp [hs]
  | smtpErr e => simp [hs, create_birthday_email_toAddr]
  | osErr e => rw [hs] at h; exact absurd h (by simp [SendResult.isOs])

/-- Unfolding of the loop over one recipient whose iteration completes. -/
lemma notifyAll_cons_ok (w : SmtpWorld) (sender pwd : String)
    (p : String × String) (ps : List (String × String)) (o : Outcome)
    (ho : (notifyOne w sender pwd p).2 = Except.ok o) :
    notifyAll w sender pwd (p :: ps) =
      ((notifyOne w sender pwd p).1 ++ (notifyAll w sender pwd ps).1,
       (notifyAll w sender pwd ps).2.map (o :: ·)) := by
  have hpair : notifyOne w sender pwd p =
      ((notifyOne w sender pwd p).1, Except.ok o) := by
    rw [← ho]
  simp only [notifyAll]
  rw [hpair]

/-- As long as no send attempt in the batch raises a non-`SMTPException`
exception, the loop opens exactly one SMTP session per recipient, in input
order, each carrying the message composed for that recipient. -/
lemma notifyAll_sessions_of_no_os (w : SmtpWorld) (sender pwd : String)
    (ps : List (String × String))
    (h : ∀ p ∈ ps, (w.sendFail (create_birthday_email sender p.2 p.1)).isOs = false) :
    (notifyAll w sender pwd ps).1.filter Event.isSession =
      ps.map (fun p => Event.smtpSession (create_birthday_email sender p.2 p.1)) := by
  induction ps with
  | nil => rfl
  | cons p ps ih =>
    obtain ⟨hev, o, ho⟩ := notifyOne_not_os w sender pwd p (h p (by simp))
    rw [notifyAll_cons_ok w sender pwd p ps o ho]
    simp only [List.filter_append]
    rw [hev, ih (fun q hq => h q (List.mem_cons_of_mem _ hq))]
    rfl

set_option maxRecDepth 8192 in
/-- **C2** (code-bug evaluation at the failing input): three matched
recipients where opening the relay session for the second raises
`ConnectionRefusedError` — which is not an `smtplib.SMTPException`, so neither
`except smtplib.SMTPException` clause catches it.  The loop aborts: send
attempts occur only for the first two recipients, the third is never
attempted, no outcome list is produced (the exception escapes the loop
untagged), and the full run reports the single untagged error line after the
first success — against the claim's length-3 outcome sequence with exactly
the second marked failed and a send to the third still occurring. -/
theorem connection_refused_aborts_batch :
    (notifyAll smtpRefuseB "sender@gmail.com" "pw" psThree).2 =
      .error (.osError "[Errno 111] Connection refused") ∧
    (notifyAll smtpRefuseB "sender@gmail.com" "pw" psThree).1.filter Event.isSession =
      [.smtpSession (create_birthday_email "sender@gmail.com" "a@x.com" "A"),
       .smtpSession (create_birthday_email "sender@gmail.com" "b@x.com" "B")] ∧
    main_run envOk fileThree smtpRefuseB ⟨2026, 6, 1⟩ =
      [.readDataset,
       .smtpSession (create_birthday_email "sender@gmail.com" "a@x.com" "A"),
       .printLine "Successfully sent birthday email to A (a@x.com)",
       .smtpSession (create_birthday_email "sender@gmail.com" "b@x.com" "B"),
       .printLine "Error: [Errno 111] Connection refused"] :=
  ⟨by decide, by decide, by decide⟩

set_option maxRecDepth 8192 in
/-- **C9** counterexample: with three matched records and a
`ConnectionRefusedError` (not an `smtplib.SMTPException`) on the second
attempt, the loop stops: only two sessions are opened, and no message for the
third matched record is ever composed or submitted — refuting "one such
message is composed and sent per matched record, in sequence order" as a
property of every run. -/
theorem third_recipient_never_composed :
    psThree.length = 3 ∧
    ((notifyAll smtpRefuseB "sender@gmail.com" "pw" psThree).1.filter
      Event.isSession).length = 2 ∧
    ∀ ev ∈ (notifyAll smtpRefuseB "sender@gmail.com" "pw" psThree).1,
      ev ≠ Event.smtpSession (create_birthday_email "sender@gmail.com" "c@x.com" "C") :=
  ⟨rfl, by decide, by decide⟩

/-- **C9** (amended): the composed message has the static subject, the sender
address in From, the record's email in To, and the static greeting/closing
body with exactly the recipient's name interpolated; and provided no send
attempt in the batch raises a non-`SMTPException` exception (such as
`ConnectionRefusedError`, which aborts the loop and leaves later matched
records without a composed message or session), the batch opens exactly one
authenticated relay session per matched record, in sequence order, each
carrying that record's composed message. -/
theorem fixed_template_one_session_each (sender_email recipient_email recipient_name
    pwd : String) (w : SmtpWorld) (ps : List (String × String))
    (h : ∀ p ∈ ps,
      (w.sendFail (create_birthday_email sender_email p.2 p.1)).isOs = false) :
    (create_birthday_email sender_email recipient_email recipient_name).subject =
      "Happy Birthday! 🎉" ∧
    (create_birthday_email sender_email recipient_email recipient_name).fromAddr =
      sender_email ∧
    (create_birthday_email sender_email recipient_email recipient_name).toAddr =
      recipient_email ∧
    (create_birthday_email sender_email recipient_email recipient_name).body =
      "    Dear " ++ recipient_name ++
        ",\n\n    Wishing you a very Happy Birthday! May your day be filled with joy, laughter, and unforgettable moments.\n\n    Best wishes,\n    Your Friendly Birthday Bot\n    " ∧
    (notifyAll w sender_email pwd ps).1.filter Event.isSession =
      ps.map (fun p => Event.smtpSession (create_birthday_email sender_email p.2 p.1)) :=
  ⟨rfl, rfl, rfl, rfl, notifyAll_sessions_of_no_os w sender_email pwd ps h⟩

set_option maxRecDepth 8192 in
/-- **C9** witness: on the relay that rejects only the second recipient with a
caught `smtplib.SMTPException` (no batch-aborting exception anywhere), the
template facts hold and the batch opens exactly one session per matched
record, in order. -/
theorem fixed_template_one_session_each_witness :
    (∀ p ∈ psThree,
      (smtpFailB.sendFail (create_birthday_email "sender@gmail.com" p.2 p.1)).isOs
        = false) ∧
    ((create_birthday_email "sender@gmail.com" "r@x.com" "R").subject =
        "Happy Birthday! 🎉" ∧
     (create_birthday_email "sender@gmail.com" "r@x.com" "R").fromAddr =
        "sender@gmail.com" ∧
     (create_birthday_email "sender@gmail.com" "r@x.com" "R").toAddr = "r@x.com" ∧
     (create_birthday_email "sender@gmail.com" "r@x.com" "R").body =
       "    Dear " ++ "R" ++
         ",\n\n    Wishing you a very Happy Birthday! May your day be filled with joy, laughter, and unforgettable moments.\n\n    Best wishes,\n    Your Friendly Birthday Bot\n    " ∧
     (notifyAll smtpFailB "sender@gmail.com" "pw" psThree).1.filter Event.isSession =
       psThree.map (fun p =>
         Event.smtpSession (create_birthday_email "sender@gmail.com" p.2 p.1))) :=
  ⟨by decide,
   fixed_template_one_session_each "sender@gmail.com" "r@x.com" "R" "pw" smtpFailB
     psThree (by decide)⟩
